import Mathlib

/-!
Shallow embedding of the document-grounded answer pipeline of the
telecom-bi-platform repository (src/app.py, class TelecomApp):
PDF text extraction and context assembly (load_pdf_context),
prompt composition and answer generation (generate_ai_response),
and the fixed fallback answer (get_fallback_response).
-/

namespace TelecomBI

/-- One source document of the corpus: its file name, and the result of
opening/parsing it.  `Except.ok pages` models a readable PDF whose pages
yield the given text strings (fitz page.get_text per page);
`Except.error e` models fitz.open or parsing raising an exception with
message e (src/app.py lines 91-96). -/
structure PdfSource where
  name : String
  pages : Except String (List String)

/-- A model adapter: maps a prompt to `Except.ok text` (the response text,
possibly empty) or `Except.error e` (the invocation raised an exception
with message e).  Mirrors self.model.generate_content plus response.text
access, the only raise site inside the try block (src/app.py lines 127-131). -/
def ModelFun := String → Except String String

/-- The application state relevant to the answer pipeline: the optional
model adapter (None when setup_gemini failed) and the enumerated corpus,
in the order Path.glob yields the files (src/app.py lines 70-83). -/
structure TelecomApp where
  model : Option ModelFun
  corpus : List PdfSource

/-- Whether a source can be opened and parsed. -/
def readable (p : PdfSource) : Bool :=
  match p.pages with
  | Except.ok _ => true
  | Except.error _ => false

/-- Per-document extraction, embedding the loop body of load_pdf_context
(src/app.py lines 90-96): on success the block
"DOCUMENT: name\n" ++ text ++ "\n" with text the newline-join of the page
texts; on failure a warning is shown and nothing is appended (`none`). -/
def extractDoc (p : PdfSource) : Option String :=
  match p.pages with
  | Except.ok pages =>
      some ("DOCUMENT: " ++ p.name ++ "\n" ++ String.intercalate "\n" pages ++ "\n")
  | Except.error _ => none

/-- The list of document blocks accumulated by load_pdf_context over the
enumerated corpus, in enumeration order. -/
def docBlocks (corpus : List PdfSource) : List String :=
  corpus.filterMap extractDoc

/-- Embedding of TelecomApp.load_pdf_context (src/app.py lines 79-98):
returns None when no PDF files are found, otherwise joins the successfully
extracted document blocks with newlines, returning None when every
extraction failed (`documents` empty). -/
def load_pdf_context (corpus : List PdfSource) : Option String :=
  if corpus.isEmpty then none
  else
    let documents := docBlocks corpus
    if documents.isEmpty then none
    else some (String.intercalate "\n" documents)

/-- The fixed instruction header of the prompt, up to and including the
indentation that precedes the interpolated pdf_context
(src/app.py lines 109-113). -/
def promptHeader : String :=
  "\n        You are a telecom data analyst specializing in Tunisian market data from INTT reports.\n        \n        CONTEXT:\n        "

/-- The fixed middle section of the prompt between the interpolated
pdf_context and the interpolated user_query: blank line, INSTRUCTIONS
block with the citation instruction, then "QUESTION: "
(src/app.py lines 113-122). -/
def promptInstructions : String :=
  "\n        \n        INSTRUCTIONS:\n        - Answer using ONLY the provided context\n        - Cite source documents: [filename.pdf]\n        - Focus on: revenues, market shares, investments, operator performance\n        - Be precise and professional\n        - Use bullet points for lists\n        \n        QUESTION: "

/-- The fixed tail of the prompt after the interpolated user_query
(src/app.py lines 122-125). -/
def promptTail : String :=
  "\n        \n        ANSWER:\n        "

/-- Prompt composition: the f-string system_prompt of generate_ai_response
(src/app.py lines 109-125), a pure concatenation of the fixed header, the
context verbatim, the fixed instruction/citation section, the query
verbatim, and the fixed tail. -/
def compose (pdf_context user_query : String) : String :=
  promptHeader ++ pdf_context ++ promptInstructions ++ user_query ++ promptTail

/-- Embedding of TelecomApp.get_fallback_response (src/app.py lines
133-144): the fixed market-overview answer. -/
def get_fallback_response : String :=
  "\n        **Telecom Market Overview** (Based on typical INTT data):\n        \n        - **Total Market Revenue (2024)**: ~3,989 M.TND\n        - **Major Operators**: Orange (23%), Ooredoo (38%), Tunisie Telecom (32%)\n        - **Key Services**: Mobile Data, Fixed Telephony, Broadband\n        - **Market Trends**: Data service growth (+22.7%), Voice service decline (-3.2%)\n        \n        *For precise, cited data, please ensure PDF documents are in the \x27pdf\x27 folder.*\n        "

/-- The message returned when no model adapter is configured
(src/app.py line 103). -/
def noModelMessage : String := "AI service unavailable. Please check configuration."

/-- Embedding of TelecomApp.generate_ai_response (src/app.py lines
100-131).  The result type Except String String makes exception
propagation explicit: `Except.error` would model an exception escaping to
the caller; `Except.ok s` models returning the string s.  The match on
the adapter result embeds the try/except around model.generate_content
and response.text, so adapter exceptions are mapped to the
"Error generating response: " string rather than propagated. -/
def generate_ai_response (app : TelecomApp) (user_query : String) :
    Except String String :=
  match app.model with
  | none => Except.ok noModelMessage
  | some m =>
    match load_pdf_context app.corpus with
    | none => Except.ok get_fallback_response
    | some ctx =>
      if ctx.isEmpty then Except.ok get_fallback_response
      else
        match m (compose ctx user_query) with
        | Except.ok text =>
            Except.ok (if text.isEmpty then "No response generated." else text)
        | Except.error e => Except.ok ("Error generating response: " ++ e)

/-- Modelled from the spec: the st.cache_data memoization layer wrapping
load_pdf_context (src/app.py line 79) is Streamlit library code absent
from the repository.  Per the spec's cache contract, get_or_build returns
the stored context on a hit with no re-extraction, and on a miss performs
a full build (one extractor invocation per source) and stores the result.
The state is the memo cell (`none` = empty cache); the Nat component of
the result counts extractor invocations performed by the call. -/
def cachedLoad (corpus : List PdfSource) (cache : Option (Option String)) :
    Option String × Option (Option String) × Nat :=
  match cache with
  | some stored => (stored, some stored, 0)
  | none => (load_pdf_context corpus, some (load_pdf_context corpus), corpus.length)

/-- Number of (possibly overlapping) occurrences of pat at positions of s. -/
def countOccAux (pat : List Char) : List Char → Nat
  | [] => 0
  | c :: rest =>
      (if List.isPrefixOf pat (c :: rest) then 1 else 0) + countOccAux pat rest

/-- Number of occurrences of the pattern string inside s. -/
def countOccStr (pat s : String) : Nat := countOccAux pat.data s.data

/-- Index of the first occurrence of pat in s, if any. -/
def firstIdxAux (pat : List Char) : List Char → Option Nat
  | [] => none
  | c :: rest =>
      if List.isPrefixOf pat (c :: rest) then some 0
      else (firstIdxAux pat rest).map (fun n => n + 1)

/-- Whether the first occurrence of p strictly precedes the first
occurrence of q inside s (false when either is absent). -/
def beforeStr (p q s : String) : Bool :=
  match firstIdxAux p.data s.data, firstIdxAux q.data s.data with
  | some i, some j => decide (i < j)
  | _, _ => false

/-- The spec's scenario corpus: A.doc yielding "Revenue grew 5%", B.doc
yielding "Orange holds 23% share". -/
def scenarioCorpus : List PdfSource :=
  [⟨"A.doc", Except.ok ["Revenue grew 5%"]⟩,
   ⟨"B.doc", Except.ok ["Orange holds 23% share"]⟩]

/-- The spec's scenario query. -/
def scenarioQuery : String := "What is Orange\x27s market share?"

/-- The context string assembled from the scenario corpus. -/
def scenarioContext : String :=
  "DOCUMENT: A.doc\nRevenue grew 5%\n\nDOCUMENT: B.doc\nOrange holds 23% share\n"

/-- The prompt composed for the scenario. -/
def scenarioPrompt : String := compose scenarioContext scenarioQuery

theorem docBlocks_nil_of_all_unreadable (corpus : List PdfSource)
    (h : ∀ p ∈ corpus, readable p = false) : docBlocks corpus = [] := by
  induction corpus with
  | nil => rfl
  | cons p ps ih =>
    have hp : readable p = false := h p (List.mem_cons_self p ps)
    have hrest : ∀ q ∈ ps, readable q = false := fun q hq => h q (List.mem_cons_of_mem p hq)
    cases hpp : p.pages with
    | ok pages =>
      exfalso
      simp [readable, hpp] at hp
    | error e =>
      simp only [docBlocks, List.filterMap_cons, extractDoc, hpp]
      exact ih hrest

theorem docBlocks_length (corpus : List PdfSource) :
    (docBlocks corpus).length = corpus.countP readable := by
  induction corpus with
  | nil => rfl
  | cons p ps ih =>
    cases hpp : p.pages with
    | ok pages =>
      simp [docBlocks, List.filterMap_cons, List.countP_cons, extractDoc, readable, hpp] at ih ⊢
      omega
    | error e =>
      simp [docBlocks, List.filterMap_cons, List.countP_cons, extractDoc, readable, hpp] at ih ⊢
      omega

theorem countP_readable_split (corpus : List PdfSource) :
    corpus.countP readable + corpus.countP (fun p => !(readable p)) = corpus.length := by
  induction corpus with
  | nil => rfl
  | cons p ps ih =>
    rw [List.countP_cons, List.countP_cons, List.length_cons]
    cases hr : readable p <;> simp [hr] <;> omega

/-- Claim C1: for every query string and every combination of conditions
(model adapter unavailable, model invocation raises, model returns empty
output, corpus empty, corpus non-empty, a document unreadable), the answer
operation generate_ai_response returns a string result (Except.ok) and
never raises an exception to its caller (never Except.error). -/
theorem C1_never_raises (app : TelecomApp) (q : String) :
    ∃ s : String, generate_ai_response app q = Except.ok s := by
  unfold generate_ai_response
  split
  · exact ⟨_, rfl⟩
  · split
    · exact ⟨_, rfl⟩
    · split
      · exact ⟨_, rfl⟩
      · split
        · exact ⟨_, rfl⟩
        · exact ⟨_, rfl⟩

/-- Claim C2, counterexample: with no model adapter configured, the answer
operation returns the fixed unavailability message, which differs from the
market-overview fallback text produced by get_fallback_response. -/
theorem C2_counterexample :
    generate_ai_response ⟨none, []⟩ "anything" = Except.ok noModelMessage ∧
    noModelMessage ≠ get_fallback_response :=
  ⟨rfl, by decide⟩

/-- Claim C2, amended: for every query string, when no model adapter is
configured (model is None), the answer operation returns the fixed message
"AI service unavailable. Please check configuration.", not the
market-overview fallback text of get_fallback_response. -/
theorem C2_amended (app : TelecomApp) (q : String) (h : app.model = none) :
    generate_ai_response app q = Except.ok noModelMessage := by
  unfold generate_ai_response
  rw [h]

/-- Claim C2, witness for the amended theorem at a concrete input. -/
theorem C2_witness :
    generate_ai_response ⟨none, []⟩ "anything" = Except.ok noModelMessage :=
  C2_amended ⟨none, []⟩ "anything" rfl

/-- Claim C3, counterexample: for the 2-source corpus whose second source
is unreadable, the built context carries exactly one document block and
does not mention the failed source at all — the failed document is
omitted, not included as an empty-text block, so the context has N-1
blocks instead of N. -/
theorem C3_counterexample :
    load_pdf_context [⟨"A.doc", Except.ok ["alpha"]⟩, ⟨"B.doc", Except.error "boom"⟩] =
      some "DOCUMENT: A.doc\nalpha\n" ∧
    countOccStr "DOCUMENT: " "DOCUMENT: A.doc\nalpha\n" = 1 ∧
    countOccStr "B.doc" "DOCUMENT: A.doc\nalpha\n" = 0 :=
  ⟨rfl, by decide, by decide⟩

/-- Claim C3, amended: for every corpus of N sources in which exactly one
source cannot be opened or parsed, context building still succeeds (it is
a total function) but produces N-1 document blocks: the failed document is
omitted from the context, not included as an empty-text block. -/
theorem C3_amended (corpus : List PdfSource)
    (h : corpus.countP (fun p => !(readable p)) = 1) :
    (docBlocks corpus).length = corpus.length - 1 := by
  have h1 := docBlocks_length corpus
  have h2 := countP_readable_split corpus
  omega

/-- Claim C3, witness for the amended theorem at a concrete corpus. -/
theorem C3_witness :
    (docBlocks [⟨"A.doc", Except.ok ["alpha"]⟩, ⟨"B.doc", Except.error "boom"⟩]).length =
      ([⟨"A.doc", Except.ok ["alpha"]⟩, ⟨"B.doc", Except.error "boom"⟩] : List PdfSource).length
        - 1 :=
  C3_amended [⟨"A.doc", Except.ok ["alpha"]⟩, ⟨"B.doc", Except.error "boom"⟩] (by decide)

/-- Claim C4, counterexample: with a working adapter that returns empty
output over a non-empty readable corpus, the answer operation returns the
fixed string "No response generated.", which differs from the
market-overview fallback text of get_fallback_response. -/
theorem C4_counterexample :
    generate_ai_response
        ⟨some (fun _ => Except.ok ""), [⟨"A.doc", Except.ok ["alpha"]⟩]⟩ "q" =
      Except.ok "No response generated." ∧
    ("No response generated." : String) ≠ get_fallback_response :=
  ⟨rfl, by decide⟩

/-- Claim C4, amended: for every query, when the model adapter is
available, the context is non-empty, and the model invocation succeeds but
returns empty output, the answer operation returns the fixed string
"No response generated.", not the Fallback state's market-overview
answer. -/
theorem C4_amended (m : ModelFun) (corpus : List PdfSource) (q ctx : String)
    (hload : load_pdf_context corpus = some ctx) (hne : ctx.isEmpty = false)
    (hm : m (compose ctx q) = Except.ok "") :
    generate_ai_response ⟨some m, corpus⟩ q = Except.ok "No response generated." := by
  unfold generate_ai_response
  simp only [hload, hm]
  rw [if_neg (by simp [hne])]
  rfl

/-- Claim C4, witness for the amended theorem at a concrete input. -/
theorem C4_witness :
    generate_ai_response
        ⟨some (fun _ => Except.ok ""), [⟨"A.doc", Except.ok ["alpha"]⟩]⟩ "q" =
      Except.ok "No response generated." :=
  C4_amended (fun _ => Except.ok "") [⟨"A.doc", Except.ok ["alpha"]⟩] "q"
    "DOCUMENT: A.doc\nalpha\n" rfl rfl rfl

/-- Claim C5, counterexample: when the adapter raises "quota exceeded",
the answer operation returns "Error generating response: quota exceeded" —
the raw error message appears verbatim in the user-facing returned text
(once), and the returned text is not the fallback answer. -/
theorem C5_counterexample :
    generate_ai_response
        ⟨some (fun _ => Except.error "quota exceeded"), [⟨"A.doc", Except.ok ["alpha"]⟩]⟩ "q" =
      Except.ok "Error generating response: quota exceeded" ∧
    countOccStr "quota exceeded" "Error generating response: quota exceeded" = 1 ∧
    ("Error generating response: quota exceeded" : String) ≠ get_fallback_response :=
  ⟨rfl, by decide, by decide⟩

/-- Claim C5, amended: for every query, when the model adapter invocation
fails with message e, the answer operation returns the string
"Error generating response: " ++ e to the caller — the raw error message
is embedded verbatim in the user-facing returned text — and no exception
propagates to the caller. -/
theorem C5_amended (m : ModelFun) (corpus : List PdfSource) (q ctx e : String)
    (hload : load_pdf_context corpus = some ctx) (hne : ctx.isEmpty = false)
    (hm : m (compose ctx q) = Except.error e) :
    generate_ai_response ⟨some m, corpus⟩ q =
      Except.ok ("Error generating response: " ++ e) := by
  unfold generate_ai_response
  simp only [hload, hm]
  rw [if_neg (by simp [hne])]

/-- Claim C5, witness for the amended theorem at a concrete input. -/
theorem C5_witness :
    generate_ai_response
        ⟨some (fun _ => Except.error "quota exceeded"), [⟨"A.doc", Except.ok ["alpha"]⟩]⟩ "q" =
      Except.ok ("Error generating response: " ++ "quota exceeded") :=
  C5_amended (fun _ => Except.error "quota exceeded") [⟨"A.doc", Except.ok ["alpha"]⟩] "q"
    "DOCUMENT: A.doc\nalpha\n" "quota exceeded" rfl rfl rfl

/-- Claim C6: prompt composition is a pure function of (context, query):
two calls of compose with equal context strings and equal query strings
produce identical prompt payloads. -/
theorem C6_compose_deterministic (c₁ c₂ q₁ q₂ : String) (hc : c₁ = c₂) (hq : q₁ = q₂) :
    compose c₁ q₁ = compose c₂ q₂ := by
  rw [hc, hq]

/-- Claim C6, witness at a concrete input. -/
theorem C6_witness : compose "ctx" "query" = compose "ctx" "query" :=
  C6_compose_deterministic "ctx" "ctx" "query" "query" rfl rfl

set_option maxRecDepth 100000 in
/-- Claim C7: for the scenario corpus A.doc -> "Revenue grew 5%",
B.doc -> "Orange holds 23% share" and the query
"What is Orange's market share?", the composed prompt is the fixed order
instruction header ++ context verbatim ++ citation instructions ++ query
++ tail, contains the labels "A.doc" and "B.doc" and the literal query
each exactly once, and the A.doc block precedes the B.doc block. -/
theorem C7_scenario :
    load_pdf_context scenarioCorpus = some scenarioContext ∧
    scenarioPrompt =
      promptHeader ++ scenarioContext ++ promptInstructions ++ scenarioQuery ++ promptTail ∧
    countOccStr "A.doc" scenarioPrompt = 1 ∧
    countOccStr "B.doc" scenarioPrompt = 1 ∧
    countOccStr scenarioQuery scenarioPrompt = 1 ∧
    beforeStr "A.doc" "B.doc" scenarioPrompt = true :=
  ⟨rfl, rfl, by decide, by decide, by decide, by decide⟩

/-- Claim C8: two consecutive context-building calls through the
memoization layer with an unchanged corpus return the same context value,
and across both calls the extractor runs exactly once per source (first
call performs corpus.length extractions, second call performs none). -/
theorem C8_cache_correctness (corpus : List PdfSource) :
    (cachedLoad corpus (cachedLoad corpus none).2.1).1 = (cachedLoad corpus none).1 ∧
    (cachedLoad corpus none).2.2 + (cachedLoad corpus (cachedLoad corpus none).2.1).2.2 =
      corpus.length :=
  ⟨rfl, rfl⟩

/-- Claim C9, counterexample: two enumerations of the same two-document
corpus in different filesystem orders are permutations of each other, yet
load_pdf_context yields different context strings for them — the builder
applies no sorting, so output is not independent of enumeration order. -/
theorem C9_counterexample :
    List.Perm
      ([⟨"A.pdf", Except.ok ["alpha"]⟩, ⟨"B.pdf", Except.ok ["beta"]⟩] : List PdfSource)
      [⟨"B.pdf", Except.ok ["beta"]⟩, ⟨"A.pdf", Except.ok ["alpha"]⟩] ∧
    load_pdf_context [⟨"A.pdf", Except.ok ["alpha"]⟩, ⟨"B.pdf", Except.ok ["beta"]⟩] ≠
      load_pdf_context [⟨"B.pdf", Except.ok ["beta"]⟩, ⟨"A.pdf", Except.ok ["alpha"]⟩] :=
  ⟨List.Perm.swap _ _ _, by decide⟩

/-- Claim C9, amended: the assembled context lists document blocks in
exactly the order the sources were enumerated (block building distributes
over list concatenation, so each source contributes its block in
enumeration position); no sorting is applied, hence byte-identical context
is guaranteed only for identical enumeration orders, not regardless of
filesystem enumeration order. -/
theorem C9_amended (l₁ l₂ : List PdfSource) :
    docBlocks (l₁ ++ l₂) = docBlocks l₁ ++ docBlocks l₂ := by
  simp [docBlocks, List.filterMap_append]

/-- Claim C10: for every corpus in which every document's extraction
fails, context building returns the same empty sentinel (None) as for an
empty corpus, and the answer operation run over such a corpus with a
working adapter returns the fallback text — callers cannot distinguish an
all-failed corpus from an empty one. -/
theorem C10_all_failed_like_empty (corpus : List PdfSource) (m : ModelFun) (q : String)
    (hfail : ∀ p ∈ corpus, readable p = false) :
    load_pdf_context corpus = none ∧
    load_pdf_context corpus = load_pdf_context [] ∧
    generate_ai_response ⟨some m, corpus⟩ q = Except.ok get_fallback_response := by
  have hblocks : docBlocks corpus = [] := docBlocks_nil_of_all_unreadable corpus hfail
  have hload : load_pdf_context corpus = none := by
    unfold load_pdf_context
    cases corpus with
    | nil => rfl
    | cons p ps => simp [hblocks]
  refine ⟨hload, by rw [hload]; rfl, ?_⟩
  unfold generate_ai_response
  simp only [hload]

/-- Claim C10, witness at a concrete all-failed corpus. -/
theorem C10_witness :
    load_pdf_context [⟨"A.doc", Except.error "boom"⟩] = none ∧
    load_pdf_context [⟨"A.doc", Except.error "boom"⟩] = load_pdf_context [] ∧
    generate_ai_response
        ⟨some (fun _ => Except.ok "hi"), [⟨"A.doc", Except.error "boom"⟩]⟩ "q" =
      Except.ok get_fallback_response :=
  C10_all_failed_like_empty [⟨"A.doc", Except.error "boom"⟩] (fun _ => Except.ok "hi") "q"
    (by decide)

end TelecomBI
